import Mathlib

/-!
# Shallow embedding of the Autonomous Self-Healing Integration Hub

This file embeds the three Python source files of the repository
(`src/master_agent.py`, `src/integration_hub.py`,
`src/integration_module_generator.py`) and proves properties of the
control loop: health aggregation, weakness detection, the healing
(synthesis + deployment) sequence, the monitoring loop, and the
health report.

Modelling conventions:
* Python `float` scores are modelled as exact rationals `ℚ`; the
  literals `0.8` and `0.7` become `4/5` and `7/10`.
* `self.performance_metrics` (a Python `dict`) is an association list
  `List (String × ℚ)` in insertion order with unique keys, matching
  CPython dict iteration order.
* A Python exception is an `Except`/`Option PyError` value; an
  uncaught exception aborts the rest of the statement sequence, which
  the embedding reproduces by explicit propagation.
* The LLM backend (`self.llm_chain.predict`) is an oracle parameter
  `LLM := String → Except PyError String`: it receives the prompt
  string and either returns generated code or raises.
* Calls to `IntegrationHub.log_event` are collected, in order, as the
  list of event strings passed to them.
-/

namespace Hub

/-- Python exception classes relevant to the control loop.
`emptyRegistryError` is the `EmptyRegistryError` class named by the
specification; nothing in the source ever raises it.
`zeroDivisionError` is Python's built-in `ZeroDivisionError`.
`llmError` stands for any exception raised by `llm_chain.predict`. -/
inductive PyError where
  | zeroDivisionError
  | emptyRegistryError
  | llmError (detail : String)
deriving DecidableEq

/-- The registry `self.performance_metrics`: a Python dict
`Identity → Score`, as an association list in insertion order. -/
abbrev Metrics := List (String × ℚ)

/-- Python dict lookup `m[k]`, as an `Option`. -/
def dictGet {α : Type} (m : List (String × α)) (k : String) : Option α :=
  (m.find? (fun kv => kv.1 = k)).map Prod.snd

/-- Embeds `MasterAgent._get_current_health` (src/master_agent.py:66-74):
`return sum(self.performance_metrics.values()) / len(self.performance_metrics)`.
There is no emptiness guard in the source: when the dict is empty the
division raises `ZeroDivisionError`. -/
def get_current_health (m : Metrics) : Except PyError ℚ :=
  if m.length = 0 then .error .zeroDivisionError
  else .ok ((m.map Prod.snd).sum / (m.length : ℚ))

/-- Embeds `MasterAgent._identify_weaknesses` (src/master_agent.py:89-97):
`return [k for k, v in self.performance_metrics.items() if v < 0.7]`.
The threshold `0.7` is hardcoded and the comprehension preserves dict
insertion order (no sorting). -/
def identify_weaknesses (m : Metrics) : List String :=
  (m.filter (fun kv => kv.2 < 7/10)).map Prod.fst

/-- The prompt string built in `IntegrationModuleGenerator.generate_module`
(src/master_agent.py:36). -/
def promptFor (integration_target : String) : String :=
  "Generate a Python module to integrate with " ++ integration_target ++
    ". Include error handling, logging, and type hints."

/-- The generative backend `self.llm_chain.predict`, as an oracle from
the prompt string to either generated code or a raised exception. -/
abbrev LLM := String → Except PyError String

/-- Observable outcome of running code that logs events, calls the
generator, and may raise: the `log_event` strings in order, the targets
passed to `generate_module` (i.e. for which `predict` was invoked), and
the uncaught exception if one propagated. -/
structure CycleResult where
  events : List String
  called : List String
  error : Option PyError
deriving DecidableEq

/-- The `for weakness in weaknesses:` loop body of
`MasterAgent._initiate_healing_process` (src/master_agent.py:85-87):
each iteration runs `generate_module(weakness)` — which calls
`predict` (may raise) and on success logs
`"Generated new integration module for {target}"` — and then
`IntegrationHub.apply_updates`, which logs
`"Applying integration module update"`. There is no `try`/`except`:
a raised exception propagates, ending the loop at that iteration. -/
def heal_loop (synth : LLM) : List String → CycleResult
  | [] => ⟨[], [], none⟩
  | w :: ws =>
    match synth (promptFor w) with
    | .error e => ⟨[], [w], some e⟩
    | .ok _result =>
      let rest := heal_loop synth ws
      ⟨("Generated new integration module for " ++ w) ::
          "Applying integration module update" :: rest.events,
        w :: rest.called, rest.error⟩

/-- Embeds `MasterAgent._initiate_healing_process` (src/master_agent.py:76-87):
logs `"Initiating self-healing process"`, computes
`_identify_weaknesses()`, then runs the synthesis/deployment loop. -/
def initiate_healing_process (synth : LLM) (m : Metrics) : CycleResult :=
  let rest := heal_loop synth (identify_weaknesses m)
  ⟨"Initiating self-healing process" :: rest.events, rest.called, rest.error⟩

/-- One iteration of the `while True:` loop of
`MasterAgent.monitor_system` (src/master_agent.py:52-64):
`current_health = self._get_current_health()` (may raise), then
`if current_health < 0.8: self._initiate_healing_process()`, then
`time.sleep(60)`. No exception is caught here either. -/
def monitor_cycle (synth : LLM) (m : Metrics) : CycleResult :=
  match get_current_health m with
  | .error e => ⟨[], [], some e⟩
  | .ok h => if h < 4/5 then initiate_healing_process synth m else ⟨[], [], none⟩

/-- Embeds `MasterAgent.monitor_system` (src/master_agent.py:52-64): the
unconditional `while True:` loop, run for `fuel` timer ticks (the
loop itself has no stop condition and no stop-signal input; it leaves
the loop body only when an uncaught exception propagates). Returns the
number of cycles started and the exception that escaped, if any. -/
def monitor_system (synth : LLM) (m : Metrics) : Nat → Nat × Option PyError
  | 0 => (0, none)
  | fuel + 1 =>
    let c := monitor_cycle synth m
    match c.error with
    | some e => (1, some e)
    | none =>
      let rest := monitor_system synth m fuel
      (rest.1 + 1, rest.2)

/-- The spec's `record(id, score)` mutation on the registry: insert or
overwrite, with Python-dict semantics (overwriting keeps the key's
original insertion position; a fresh key is appended). -/
def record (m : Metrics) (id : String) (score : ℚ) : Metrics :=
  if m.any (fun kv => kv.1 = id) then
    m.map (fun kv => if kv.1 = id then (kv.1, score) else kv)
  else m ++ [(id, score)]

/-- The registry obtained by recording the given `(id, score)` pairs in
order, starting from an empty registry. -/
def buildRegistry (ops : List (String × ℚ)) : Metrics :=
  ops.foldl (fun m p => record m p.1 p.2) []

/-- Insertion step for sorting weaknesses ascending by score, ties
broken by identity (lexicographic). Used only by `find_weak_spec`. -/
def insertByScore (p : String × ℚ) : List (String × ℚ) → List (String × ℚ)
  | [] => [p]
  | q :: rest =>
    if p.2 < q.2 ∨ (p.2 = q.2 ∧ p.1 ≤ q.1) then p :: q :: rest
    else q :: insertByScore p rest

/-- Modelled from the spec, for comparison with the source's
`_identify_weaknesses`: `find_weak(snapshot, weakness_threshold)`
returns identities with score strictly below the threshold, ordered
by ascending score (worst first), ties broken by the identity's
lexicographic ordering. -/
def find_weak_spec (m : Metrics) (threshold : ℚ) : List String :=
  ((m.filter (fun kv => kv.2 < threshold)).foldr insertByScore []).map Prod.fst

/-- A Python value appearing in the `report_health` dict. -/
inductive PyValue where
  | str (s : String)
  | num (q : ℚ)
deriving DecidableEq

/-- Embeds `IntegrationHub.report_health` (src/integration_hub.py:45-52 and
src/master_agent.py:125-132, identical): a static method that returns
`{"status": "healthy", "timestamp": time.time()}` — it reads no
metrics, so the only input is the current clock value. -/
def report_health (now : ℚ) : List (String × PyValue) :=
  [("status", .str "healthy"), ("timestamp", .num now)]

/-- Embeds `IntegrationModuleGenerator.generate_module` of the standalone file
(src/integration_module_generator.py:24-34): the function body consists
of the docstring and a comment only — there is no `return` statement,
so the call returns Python `None` for every input, despite the
annotation `-> str`. -/
def standalone_generate_module (integration_target : String) : Option String :=
  none

/-- Modelled from the spec: the arithmetic mean of the recorded scores
(`Aggregate Health: derived value = arithmetic mean of all current
Health Scores`). Used to compare `_get_current_health` against the
spec's definition. -/
def mean_health (m : Metrics) : ℚ :=
  (m.map Prod.snd).sum / (m.length : ℚ)

/-! ## Helper lemmas -/

/-- In a registry with pairwise-distinct identities (as in a Python
dict), an identity determines its score. -/
theorem dict_val_eq {m : Metrics} {k : String} {a b : ℚ}
    (hnd : (m.map Prod.fst).Nodup) (ha : (k, a) ∈ m) (hb : (k, b) ∈ m) :
    a = b := by
  induction m with
  | nil => exact absurd ha (List.not_mem_nil _)
  | cons p m ih =>
    rw [List.map_cons, List.nodup_cons] at hnd
    rcases List.mem_cons.mp ha with ha' | ha' <;>
      rcases List.mem_cons.mp hb with hb' | hb'
    · exact (Prod.ext_iff.mp (ha'.trans hb'.symm)).2
    · have hk : k ∈ m.map Prod.fst := List.mem_map_of_mem Prod.fst hb'
      rw [← ha'] at hnd
      exact absurd hk hnd.1
    · have hk : k ∈ m.map Prod.fst := List.mem_map_of_mem Prod.fst ha'
      rw [← hb'] at hnd
      exact absurd hk hnd.1
    · exact ih hnd.2 ha' hb'

/-- Recording pairwise-distinct identities into a registry appends them
in recording order. -/
theorem foldl_record_of_nodup (ops : List (String × ℚ)) (acc : Metrics)
    (h : ((acc ++ ops).map Prod.fst).Nodup) :
    ops.foldl (fun m p => record m p.1 p.2) acc = acc ++ ops := by
  induction ops generalizing acc with
  | nil => simp
  | cons p ops ih =>
    have hfresh : p.1 ∉ acc.map Prod.fst := by
      intro hmem
      rw [List.map_append, List.nodup_append] at h
      exact h.2.2 hmem (by simp)
    have hany : acc.any (fun kv => kv.1 = p.1) = false := by
      simp only [List.any_eq_false, decide_eq_true_eq]
      intro kv hkv h1
      exact hfresh (h1 ▸ List.mem_map_of_mem Prod.fst hkv)
    have hrec : record acc p.1 p.2 = acc ++ [p] := by
      rw [record, if_neg (by simp [hany])]
    rw [List.foldl_cons, hrec,
      ih (acc ++ [p]) (by simpa [List.append_assoc] using h)]
    simp

/-- On a non-empty registry, `_get_current_health` returns the mean. -/
theorem get_current_health_ne_nil {m : Metrics} (h : m ≠ []) :
    get_current_health m = .ok (mean_health m) := by
  rw [get_current_health, if_neg (by simpa [List.length_eq_zero] using h),
    mean_health]

/-- On a non-empty registry, one monitoring cycle reduces to the
threshold test on the mean. -/
theorem monitor_cycle_ok (synth : LLM) {m : Metrics} (h : m ≠ []) :
    monitor_cycle synth m =
      if mean_health m < 4/5 then initiate_healing_process synth m
      else ⟨[], [], none⟩ := by
  rw [monitor_cycle, get_current_health_ne_nil h]

/-! ## Claim theorems -/

/-- C1: the claim says computing aggregate health on an empty registry
fails with `EmptyRegistryError` behind an explicit guard. The source
has no guard and no `EmptyRegistryError`: `sum(...) / len(...)` on an
empty dict raises Python's raw `ZeroDivisionError`. This theorem
records the actual behaviour at the failing input: the call fails with
`ZeroDivisionError`, not with `EmptyRegistryError`, and never returns
a numeric value. -/
theorem C1_empty_registry_zero_division :
    get_current_health [] = .error .zeroDivisionError
    ∧ get_current_health [] ≠ .error .emptyRegistryError
    ∧ ∀ q : ℚ, get_current_health [] ≠ .ok q := by
  have hred : get_current_health [] = .error .zeroDivisionError := rfl
  refine ⟨hred, ?_, ?_⟩
  · rw [hred]; intro h
    exact PyError.noConfusion (Except.error.inj h)
  · intro q; rw [hred]; intro h
    exact Except.noConfusion h

/-- C7: the claim says a cycle that starts with an empty registry logs
the condition, computes no weakness set, does not crash, and returns
to Idle. In the source nothing catches the `ZeroDivisionError` raised
by `_get_current_health`, so the cycle crashes with no log event and
no weakness computation: for every synthesis oracle, the cycle on the
empty registry produces no events, calls no synthesis, and propagates
`ZeroDivisionError`. -/
theorem C7_empty_registry_crashes_cycle (synth : LLM) :
    monitor_cycle synth [] = ⟨[], [], some PyError.zeroDivisionError⟩ :=
  rfl

/-- C2 counterexample: the claim says the weakness list is sorted
ascending by score. Take the registry recorded as b:0.5 then a:0.3
(both weak). The source returns the dict insertion order `["b", "a"]`,
whose first element has the larger score (0.5 > 0.3), while the
spec's ordering (ascending by score, `find_weak_spec`) is
`["a", "b"]`: the returned list is not sorted ascending by score. -/
theorem C2_insertion_order_not_sorted :
    identify_weaknesses [("b", 1/2), ("a", 3/10)] = ["b", "a"]
    ∧ find_weak_spec [("b", 1/2), ("a", 3/10)] (7/10) = ["a", "b"]
    ∧ identify_weaknesses [("b", 1/2), ("a", 3/10)]
        ≠ find_weak_spec [("b", 1/2), ("a", 3/10)] (7/10)
    ∧ dictGet [("b", (1:ℚ)/2), ("a", 3/10)] "b" = some (1/2)
    ∧ dictGet [("b", (1:ℚ)/2), ("a", 3/10)] "a" = some (3/10)
    ∧ ¬ ((1:ℚ)/2 ≤ 3/10) := by
  refine ⟨?_, ?_, ?_, rfl, rfl, by norm_num⟩ <;>
    norm_num [identify_weaknesses, find_weak_spec, insertByScore] <;> decide

/-- C2 amended: on a registry with pairwise-distinct identities,
`_identify_weaknesses` returns exactly the identities whose score is
strictly below the hardcoded threshold 0.7 — never an identity with
score at or above it — in registry insertion order (a sublist of the
registry's identity sequence), not sorted by score. -/
theorem C2_weaknesses_exactly_below_threshold (m : Metrics)
    (hnd : (m.map Prod.fst).Nodup) :
    (identify_weaknesses m).Sublist (m.map Prod.fst)
    ∧ (∀ k q, k ∈ identify_weaknesses m → (k, q) ∈ m → q < 7/10)
    ∧ (∀ k q, (k, q) ∈ m → q < 7/10 → k ∈ identify_weaknesses m) := by
  refine ⟨(List.filter_sublist m).map Prod.fst, ?_, ?_⟩
  · intro k q hk hm
    rw [identify_weaknesses] at hk
    obtain ⟨⟨k', q'⟩, hmem, hfst⟩ := List.mem_map.mp hk
    have hfil := List.mem_filter.mp hmem
    have hq' : q' < 7/10 := by simpa using hfil.2
    have hkk : k' = k := hfst
    rw [hkk] at hfil
    have : q = q' := dict_val_eq hnd hm hfil.1
    rwa [this]
  · intro k q hm hq
    rw [identify_weaknesses]
    exact List.mem_map_of_mem Prod.fst
      (List.mem_filter.mpr ⟨hm, decide_eq_true hq⟩)

/-- C2 witness: the amended statement at the registry
lo:0.5, hi:0.9. -/
theorem C2_witness :
    (identify_weaknesses [("lo", 1/2), ("hi", 9/10)]).Sublist
        (([("lo", (1:ℚ)/2), ("hi", 9/10)]).map Prod.fst)
    ∧ (∀ k q, k ∈ identify_weaknesses [("lo", 1/2), ("hi", 9/10)] →
        (k, q) ∈ ([("lo", (1:ℚ)/2), ("hi", 9/10)] : Metrics) → q < 7/10)
    ∧ (∀ k q, (k, q) ∈ ([("lo", (1:ℚ)/2), ("hi", 9/10)] : Metrics) →
        q < 7/10 → k ∈ identify_weaknesses [("lo", 1/2), ("hi", 9/10)]) :=
  C2_weaknesses_exactly_below_threshold [("lo", 1/2), ("hi", 9/10)] (by simp)

/-- C3: the claim says a synthesis failure for one identity is logged
and the batch continues to the next identity. The `for` loop of
`_initiate_healing_process` has no `try`/`except`: with a backend
whose `predict` raises, registry x:0.5, y:0.6 yields the weakness
list `["x", "y"]`, but the run calls synthesis only for `"x"`, logs
only the initial event (no per-identity outcome), never attempts
`"y"`, and lets the exception propagate. -/
theorem C3_synthesis_failure_aborts_batch :
    identify_weaknesses [("x", 1/2), ("y", 3/5)] = ["x", "y"]
    ∧ initiate_healing_process
        (fun _ => .error (.llmError "backend failure")) [("x", 1/2), ("y", 3/5)]
      = ⟨["Initiating self-healing process"], ["x"],
          some (.llmError "backend failure")⟩
    ∧ "y" ∉ (initiate_healing_process
        (fun _ => .error (.llmError "backend failure"))
        [("x", 1/2), ("y", 3/5)]).called := by
  refine ⟨?_, ?_, ?_⟩ <;>
    norm_num [identify_weaknesses, initiate_healing_process, heal_loop] <;>
    decide

/-- C4: on every non-empty registry built by recording
pairwise-distinct identities, aggregate health is the arithmetic mean
of the recorded scores, and recording the same scores in any other
order yields the same aggregate health. -/
theorem C4_aggregate_mean_order_invariant (ops1 ops2 : List (String × ℚ))
    (hperm : ops1.Perm ops2) (hnd : (ops1.map Prod.fst).Nodup)
    (hne : ops1 ≠ []) :
    get_current_health (buildRegistry ops1) = .ok (mean_health ops1)
    ∧ get_current_health (buildRegistry ops1)
        = get_current_health (buildRegistry ops2) := by
  have hnd2 : (ops2.map Prod.fst).Nodup := ((hperm.map Prod.fst).nodup_iff).mp hnd
  have hne2 : ops2 ≠ [] := fun h => hne (List.Perm.eq_nil (h ▸ hperm))
  have h1 : buildRegistry ops1 = ops1 := by
    simpa using foldl_record_of_nodup ops1 [] (by simpa using hnd)
  have h2 : buildRegistry ops2 = ops2 := by
    simpa using foldl_record_of_nodup ops2 [] (by simpa using hnd2)
  refine ⟨by rw [h1, get_current_health_ne_nil hne], ?_⟩
  rw [h1, h2, get_current_health_ne_nil hne, get_current_health_ne_nil hne2,
    mean_health, mean_health, (hperm.map Prod.snd).sum_eq, hperm.length_eq]

/-- C4 witness: recording a:0.5 then b:1 gives the same aggregate
health (their mean) as recording b:1 then a:0.5. -/
theorem C4_witness :
    get_current_health (buildRegistry [("a", 1/2), ("b", 1)])
      = .ok (mean_health [("a", 1/2), ("b", 1)])
    ∧ get_current_health (buildRegistry [("a", 1/2), ("b", 1)])
      = get_current_health (buildRegistry [("b", 1), ("a", 1/2)]) :=
  C4_aggregate_mean_order_invariant [("a", 1/2), ("b", 1)]
    [("b", 1), ("a", 1/2)] (List.Perm.swap _ _ _) (by simp) (by simp)

/-- C5: on every non-empty registry, one monitoring cycle initiates
the healing process (logs "Initiating self-healing process" and runs
the synthesis/deployment batch) exactly when aggregate health is
strictly below the 0.8 threshold; at or above the threshold the cycle
produces no events, no synthesis calls, and no error. -/
theorem C5_healing_iff_below_threshold (synth : LLM) (m : Metrics)
    (hne : m ≠ []) :
    ("Initiating self-healing process" ∈ (monitor_cycle synth m).events
      ↔ mean_health m < 4/5)
    ∧ (4/5 ≤ mean_health m → monitor_cycle synth m = ⟨[], [], none⟩) := by
  rw [monitor_cycle_ok synth hne]
  by_cases hlt : mean_health m < 4/5
  · rw [if_pos hlt]
    refine ⟨⟨fun _ => hlt, fun _ => ?_⟩, fun h => absurd hlt (not_lt.mpr h)⟩
    rw [initiate_healing_process]
    exact List.mem_cons_self _ _
  · rw [if_neg hlt]
    exact ⟨⟨fun h => absurd h (by simp), fun h => absurd h hlt⟩, fun _ => rfl⟩

/-- C5 witness: the statement at the healthy registry A:0.95 (mean
0.95 is not below 0.8, so no healing event and an inert cycle). -/
theorem C5_witness :
    ("Initiating self-healing process"
        ∈ (monitor_cycle (fun _ => .ok "code") [("A", 19/20)]).events
      ↔ mean_health [("A", 19/20)] < 4/5)
    ∧ (4/5 ≤ mean_health [("A", 19/20)] →
        monitor_cycle (fun _ => .ok "code") [("A", 19/20)] = ⟨[], [], none⟩) :=
  C5_healing_iff_below_threshold (fun _ => .ok "code") [("A", 19/20)] (by simp)

/-- C6 counterexample: the claim says a healthy cycle emits exactly
one "no action" log event — in particular at the registry
A:0.95, B:0.9 (aggregate 0.925 at or above 0.8). The source's healthy
branch logs nothing: that cycle emits zero events, so there is no
single "no action" event. -/
theorem C6_healthy_cycle_has_no_log_event :
    get_current_health [("A", 19/20), ("B", 9/10)] = .ok (37/40)
    ∧ ¬ ((37:ℚ)/40 < 4/5)
    ∧ (monitor_cycle (fun _ => .ok "m") [("A", 19/20), ("B", 9/10)]).events
        = []
    ∧ ¬ ((monitor_cycle (fun _ => .ok "m")
        [("A", 19/20), ("B", 9/10)]).events.length = 1) := by
  refine ⟨by norm_num [get_current_health], by norm_num, ?_, ?_⟩ <;>
    norm_num [monitor_cycle, get_current_health]

/-- C6 amended: in every cycle in which aggregate health is at or
above the 0.8 threshold, the controller attempts no remediation and
emits no log event at all — zero events, not one "no action" event —
before the next tick. -/
theorem C6_healthy_branch_logs_nothing (synth : LLM) (m : Metrics)
    (hne : m ≠ []) (hh : 4/5 ≤ mean_health m) :
    monitor_cycle synth m = ⟨[], [], none⟩ := by
  rw [monitor_cycle_ok synth hne, if_neg (not_lt.mpr hh)]

/-- C6 witness: the amended statement at the claim's registry
A:0.95, B:0.9. -/
theorem C6_witness :
    monitor_cycle (fun _ => .ok "m") [("A", 19/20), ("B", 9/10)]
      = ⟨[], [], none⟩ :=
  C6_healthy_branch_logs_nothing (fun _ => .ok "m") [("A", 19/20), ("B", 9/10)]
    (by simp) (by norm_num [mean_health])

/-- C8: the claim says the health report contains a status that is
"healthy" or "degraded", a timestamp, and the aggregate_health value,
reflecting the last evaluation. The source's `report_health` is a
static method that reads no evaluation state: for every clock value
it returns exactly the two-key dict
with status "healthy" and the timestamp — there is no
aggregate_health key, and the status is the constant "healthy"
independent of any registry contents. -/
theorem C8_report_is_static (now : ℚ) :
    report_health now = [("status", .str "healthy"), ("timestamp", .num now)]
    ∧ dictGet (report_health now) "status" = some (.str "healthy")
    ∧ dictGet (report_health now) "aggregate_health" = none :=
  ⟨rfl, rfl, rfl⟩

/-- C9: the claim says that once an external stop signal is raised no
new evaluation cycle starts. The source's `monitor_system` is an
unconditional `while True:` loop with no stop-signal input and no
loop condition: whenever a cycle completes without an uncaught
exception, the loop starts a new cycle on every one of `fuel`
consecutive ticks, for every `fuel` — nothing can stop it short of
killing the process or an uncaught exception. -/
theorem C9_loop_starts_cycle_every_tick (synth : LLM) (m : Metrics)
    (h : (monitor_cycle synth m).error = none) (fuel : Nat) :
    monitor_system synth m fuel = (fuel, none) := by
  induction fuel with
  | zero => rfl
  | succ n ih => simp only [monitor_system, h, ih]

/-- C9 witness: with the healthy registry A:0.95 and a successful
backend, five ticks start five cycles and the loop is still running. -/
theorem C9_witness :
    monitor_system (fun _ => .ok "m") [("A", 19/20)] 5 = (5, none) :=
  C9_loop_starts_cycle_every_tick (fun _ => .ok "m") [("A", 19/20)]
    (by norm_num [monitor_cycle, get_current_health]) 5

/-- C10: in `src/integration_module_generator.py` the body of
`generate_module` is a docstring and a comment only — no `return`
statement — so for every input the call returns Python `None`,
despite the `-> str` annotation. -/
theorem C10_standalone_generator_returns_none (integration_target : String) :
    standalone_generate_module integration_target = none :=
  rfl

end Hub
